import Mathlib

/-!
Shallow embedding of the `starter_client` TypeScript package: the
`StarterClient` HTTP facade (`src/network/StarterClient.ts`), its pure
helpers (`src/utils/starter-helpers.ts`), the query-key table
(`src/types.ts`), and the data-fetching hooks (`useHistories`,
`useHistoriesTotal`, `useHistoryMutations`).

Wire values are modelled by an untyped JSON value type `JVal`, because the
client casts the transport's `response.data` without inspecting it and the
hooks test envelope fields with JavaScript truthiness.  Asynchronous calls
with exception propagation are modelled by `NetM`: a state-passing function
that threads a trace of transport requests and short-circuits on the first
error, mirroring `await` on a rejected promise.
-/

/-- A JSON value, the model of what the injected transport delivers in
`response.data` (the `{success, data, error}` envelope and its fields). -/
inductive JVal where
  | null
  | bool (b : Bool)
  | num (n : Int)
  | str (s : String)
  | arr (xs : List JVal)
  | obj (fields : List (String × JVal))

/-- Field lookup in a JSON object's field list (first match wins). -/
def jLookup : List (String × JVal) → String → Option JVal
  | [], _ => none
  | (k, v) :: rest, key => if k = key then some v else jLookup rest key

/-- JavaScript property access `v.key`: a field of an object, `undefined`
(here `none`) otherwise. -/
def jGet : JVal → String → Option JVal
  | JVal.obj fields, key => jLookup fields key
  | _, _ => none

/-- JavaScript truthiness of a JSON value: `null`, `false`, `0` and the
empty string are falsy; arrays and objects are always truthy. -/
def jTruthy : JVal → Bool
  | JVal.null => false
  | JVal.bool b => b
  | JVal.num n => n != 0
  | JVal.str s => s != ""
  | JVal.arr _ => true
  | JVal.obj _ => true

/-- Truthiness of `v.key`, with a missing field (`undefined`) falsy; this is
how the hooks evaluate `response.success`, `response.data`, `response.error`. -/
def jGetTruthy (v : JVal) (key : String) : Bool :=
  match jGet v key with
  | some w => jTruthy w
  | none => false

mutual
/-- JavaScript string conversion `String(v)`, used by `new Error(v)` when the
envelope's `error` field is truthy.  The wire contract types `error` as a
string, so only the `str` branch is reachable for conforming envelopes; the
other branches follow `String()` on primitives and objects (array elements
are joined with a comma). -/
def jValMessage : JVal → String
  | JVal.null => "null"
  | JVal.bool b => cond b "true" "false"
  | JVal.num n => toString n
  | JVal.str s => s
  | JVal.arr xs => jArrJoin xs
  | JVal.obj _ => "[object Object]"

/-- Comma-join of array elements under `String()`. -/
def jArrJoin : List JVal → String
  | [] => ""
  | [x] => jValMessage x
  | x :: y :: xs => jValMessage x ++ "," ++ jArrJoin (y :: xs)
end

/-- JavaScript nullish coalescing `v ?? dflt` applied to an optional
property access: `undefined` and `null` fall through to the default. -/
def jCoalesce (v : Option JVal) (dflt : JVal) : JVal :=
  match v with
  | some JVal.null => dflt
  | some w => w
  | none => dflt

/-- The message of `new Error(response.error || fallback)`: the envelope's
`error` field when truthy (converted by `String()`), else the fallback. -/
def envErrorMessage (resp : JVal) (fallback : String) : String :=
  match jGet resp "error" with
  | some v => if jTruthy v then jValMessage v else fallback
  | none => fallback

/-- Escape quote and backslash characters for JSON string serialization. -/
def escapeJsonChars : List Char → String
  | [] => ""
  | '"' :: cs => "\\\"" ++ escapeJsonChars cs
  | '\\' :: cs => "\\\\" ++ escapeJsonChars cs
  | c :: cs => String.mk [c] ++ escapeJsonChars cs

mutual
/-- `JSON.stringify` on the JSON value model (quote and backslash escaping
in strings; no claim inspects serialized bodies beyond equality). -/
def jsonStringify : JVal → String
  | JVal.null => "null"
  | JVal.bool b => cond b "true" "false"
  | JVal.num n => toString n
  | JVal.str s => "\"" ++ escapeJsonChars s.data ++ "\""
  | JVal.arr xs => "[" ++ jsonStringifyList xs ++ "]"
  | JVal.obj fields => "\x7b" ++ jsonStringifyFields fields ++ "\x7d"

/-- Comma-separated serialization of array elements. -/
def jsonStringifyList : List JVal → String
  | [] => ""
  | [x] => jsonStringify x
  | x :: y :: xs => jsonStringify x ++ "," ++ jsonStringifyList (y :: xs)

/-- Comma-separated serialization of object fields. -/
def jsonStringifyFields : List (String × JVal) → String
  | [] => ""
  | [(k, v)] => "\"" ++ k ++ "\":" ++ jsonStringify v
  | (k, v) :: f :: fs =>
      "\"" ++ k ++ "\":" ++ jsonStringify v ++ "," ++ jsonStringifyFields (f :: fs)
end

/-! ## `src/utils/starter-helpers.ts` -/

/-- `createAuthHeaders(token)`: the header list sent on authenticated calls. -/
def createAuthHeaders (token : String) : List (String × String) :=
  [("Content-Type", "application/json"),
   ("Accept", "application/json"),
   ("Authorization", "Bearer " ++ token)]

/-- `createHeaders()`: the header list sent on unauthenticated calls. -/
def createHeaders : List (String × String) :=
  [("Content-Type", "application/json"),
   ("Accept", "application/json")]

/-- Whether a character list ends with a slash. -/
def lastIsSlash (s : List Char) : Bool :=
  match s.getLast? with
  | some '/' => true
  | _ => false

/-- Whether a character list starts with a slash. -/
def headIsSlash (s : List Char) : Bool :=
  match s.head? with
  | some '/' => true
  | _ => false

/-- `baseUrl.replace(/\/$/, '')`: the regex is anchored and the replacement
is not global, so exactly one trailing slash is removed when present. -/
def stripTrailingSlash (s : List Char) : List Char :=
  if lastIsSlash s then s.dropLast else s

/-- `buildUrl(baseUrl, path)`: strip one trailing slash from the base and
concatenate the path. -/
def buildUrl (baseUrl path : String) : String :=
  String.mk (stripTrailingSlash baseUrl.data ++ path.data)

/-- `handleApiError(response, operation)`: the message of the descriptive
error object built by the error-formatting helper
(`resp?.data?.error || resp?.data?.message || 'Unknown error'`). -/
def handleApiError (response : JVal) (operation : String) : String :=
  let msg :=
    match jGet response "data" with
    | some d =>
        if jGetTruthy d "error" then jValMessage ((jGet d "error").getD JVal.null)
        else if jGetTruthy d "message" then jValMessage ((jGet d "message").getD JVal.null)
        else "Unknown error"
    | none => "Unknown error"
  "Failed to " ++ operation ++ ": " ++ msg

/-! ## `src/types.ts` -/

/-- `QUERY_KEYS.histories(userId)`. -/
def QUERY_KEYS.histories (userId : String) : List String :=
  ["starter", "histories", userId]

/-- `QUERY_KEYS.historiesTotal()`. -/
def QUERY_KEYS.historiesTotal : List String :=
  ["starter", "histories", "total"]

/-- `QUERY_KEYS.user(userId)`. -/
def QUERY_KEYS.user (userId : String) : List String :=
  ["starter", "user", userId]

/-! ## Transport model and `src/network/StarterClient.ts` -/

/-- The HTTP verb chosen by each client method. -/
inductive HttpMethod where
  | get
  | post
  | put
  | delete
deriving DecidableEq

/-- The second argument of a transport verb: `{headers, body?}`. -/
structure RequestOptions where
  headers : List (String × String)
  body : Option String := none
deriving DecidableEq

/-- One transport invocation as observed by the injected `NetworkClient`. -/
structure Request where
  method : HttpMethod
  url : String
  options : RequestOptions
deriving DecidableEq

/-- What a transport verb resolves with: an object whose `data` field holds
the parsed JSON envelope. -/
structure TransportResponse where
  data : JVal

/-- The trace of transport invocations made so far. -/
abbrev Trace := List Request

/-- The asynchronous-call model: a computation threads the transport trace
and either resolves with a value or rejects with an error `ε`. -/
abbrev NetM (ε α : Type) := Trace → Except ε α × Trace

/-- `await x` followed by `k`: a rejection short-circuits, exactly as an
awaited promise rejection propagates out of an `async` function. -/
def netBind {ε α β : Type} (x : NetM ε α) (k : α → NetM ε β) : NetM ε β :=
  fun log =>
    match x log with
    | (Except.error e, log') => (Except.error e, log')
    | (Except.ok a, log') => k a log'

/-- Resolve with a value. -/
def netPure {ε α : Type} (a : α) : NetM ε α :=
  fun log => (Except.ok a, log)

/-- `throw new Error(e)`. -/
def netThrow {ε α : Type} (e : ε) : NetM ε α :=
  fun log => (Except.error e, log)

/-- The injected transport abstraction: `get/post/put/delete(url, options)`. -/
structure NetworkClient (ε : Type) where
  get : String → RequestOptions → NetM ε TransportResponse
  post : String → RequestOptions → NetM ε TransportResponse
  put : String → RequestOptions → NetM ε TransportResponse
  delete : String → RequestOptions → NetM ε TransportResponse

/-- The `StarterClient` constructor stores the base URL and the transport. -/
structure StarterClient (ε : Type) where
  baseUrl : String
  networkClient : NetworkClient ε

/-- `getUser(userId, token)`: GET the user path with bearer headers and
return `response.data` (the TypeScript cast changes nothing at runtime). -/
def StarterClient.getUser {ε : Type} (c : StarterClient ε)
    (userId token : String) : NetM ε JVal :=
  netBind
    (c.networkClient.get (buildUrl c.baseUrl ("/api/v1/users/" ++ userId))
      { headers := createAuthHeaders token })
    (fun response => netPure response.data)

/-- `getHistories(userId, token)`: GET the histories path with bearer
headers and return `response.data`. -/
def StarterClient.getHistories {ε : Type} (c : StarterClient ε)
    (userId token : String) : NetM ε JVal :=
  netBind
    (c.networkClient.get
      (buildUrl c.baseUrl ("/api/v1/users/" ++ userId ++ "/histories"))
      { headers := createAuthHeaders token })
    (fun response => netPure response.data)

/-- `createHistory(userId, data, token)`: POST the serialized body with
bearer headers and return `response.data`. -/
def StarterClient.createHistory {ε : Type} (c : StarterClient ε)
    (userId : String) (data : JVal) (token : String) : NetM ε JVal :=
  netBind
    (c.networkClient.post
      (buildUrl c.baseUrl ("/api/v1/users/" ++ userId ++ "/histories"))
      { headers := createAuthHeaders token, body := some (jsonStringify data) })
    (fun response => netPure response.data)

/-- `updateHistory(userId, historyId, data, token)`: PUT the serialized body
with bearer headers and return `response.data`. -/
def StarterClient.updateHistory {ε : Type} (c : StarterClient ε)
    (userId historyId : String) (data : JVal) (token : String) : NetM ε JVal :=
  netBind
    (c.networkClient.put
      (buildUrl c.baseUrl
        ("/api/v1/users/" ++ userId ++ "/histories/" ++ historyId))
      { headers := createAuthHeaders token, body := some (jsonStringify data) })
    (fun response => netPure response.data)

/-- `deleteHistory(userId, historyId, token)`: DELETE with bearer headers
and return `response.data`. -/
def StarterClient.deleteHistory {ε : Type} (c : StarterClient ε)
    (userId historyId : String) (token : String) : NetM ε JVal :=
  netBind
    (c.networkClient.delete
      (buildUrl c.baseUrl
        ("/api/v1/users/" ++ userId ++ "/histories/" ++ historyId))
      { headers := createAuthHeaders token })
    (fun response => netPure response.data)

/-- `getHistoriesTotal()`: GET the public total path with the anonymous
headers and return `response.data`. -/
def StarterClient.getHistoriesTotal {ε : Type} (c : StarterClient ε) :
    NetM ε JVal :=
  netBind
    (c.networkClient.get (buildUrl c.baseUrl "/api/v1/histories/total")
      { headers := createHeaders })
    (fun response => netPure response.data)

/-- A transport that records every invocation in the trace and answers each
request according to the behaviour function `f`. -/
def loggingClient {ε : Type} (f : Request → Except ε TransportResponse) :
    NetworkClient ε where
  get := fun url opts log =>
    (f ⟨HttpMethod.get, url, opts⟩, log ++ [⟨HttpMethod.get, url, opts⟩])
  post := fun url opts log =>
    (f ⟨HttpMethod.post, url, opts⟩, log ++ [⟨HttpMethod.post, url, opts⟩])
  put := fun url opts log =>
    (f ⟨HttpMethod.put, url, opts⟩, log ++ [⟨HttpMethod.put, url, opts⟩])
  delete := fun url opts log =>
    (f ⟨HttpMethod.delete, url, opts⟩, log ++ [⟨HttpMethod.delete, url, opts⟩])

/-- The request issued by `getUser`. -/
def getUserRequest (base userId token : String) : Request :=
  ⟨HttpMethod.get, buildUrl base ("/api/v1/users/" ++ userId),
    { headers := createAuthHeaders token }⟩

/-- The request issued by `getHistories`. -/
def getHistoriesRequest (base userId token : String) : Request :=
  ⟨HttpMethod.get, buildUrl base ("/api/v1/users/" ++ userId ++ "/histories"),
    { headers := createAuthHeaders token }⟩

/-- The request issued by `createHistory`. -/
def createHistoryRequest (base userId : String) (data : JVal)
    (token : String) : Request :=
  ⟨HttpMethod.post, buildUrl base ("/api/v1/users/" ++ userId ++ "/histories"),
    { headers := createAuthHeaders token, body := some (jsonStringify data) }⟩

/-- The request issued by `updateHistory`. -/
def updateHistoryRequest (base userId historyId : String) (data : JVal)
    (token : String) : Request :=
  ⟨HttpMethod.put,
    buildUrl base ("/api/v1/users/" ++ userId ++ "/histories/" ++ historyId),
    { headers := createAuthHeaders token, body := some (jsonStringify data) }⟩

/-- The request issued by `deleteHistory`. -/
def deleteHistoryRequest (base userId historyId token : String) : Request :=
  ⟨HttpMethod.delete,
    buildUrl base ("/api/v1/users/" ++ userId ++ "/histories/" ++ historyId),
    { headers := createAuthHeaders token }⟩

/-- The request issued by `getHistoriesTotal`. -/
def getHistoriesTotalRequest (base : String) : Request :=
  ⟨HttpMethod.get, buildUrl base "/api/v1/histories/total",
    { headers := createHeaders }⟩

/-! ## Hook layer: `useHistories`, `useHistoriesTotal`, `useHistoryMutations` -/

/-- JavaScript truthiness `!!v` of a nullable string (`null` and the empty
string are falsy). -/
def strTruthy : Option String → Bool
  | some s => s != ""
  | none => false

/-- `EMPTY_HISTORIES`: the default list the hook exposes before data loads. -/
def EMPTY_HISTORIES : JVal := JVal.arr []

/-- Modelled from the spec: `DEFAULT_STALE_TIME` is imported by the hook
from `../types` but its definition is not under `src`; the spec fixes the
staleness window default at 5 minutes. -/
def DEFAULT_STALE_TIME : Nat := 5 * 60 * 1000

/-- Modelled from the spec: `DEFAULT_GC_TIME` is imported by the hook from
`../types` but its definition is not under `src`; the spec fixes the
garbage-collection window default at 30 minutes. -/
def DEFAULT_GC_TIME : Nat := 30 * 60 * 1000

/-- `useHistories`'s enabled flag:
`(options?.enabled ?? true) && !!userId && !!token`. -/
def useHistoriesEnabled (userId token : Option String)
    (optEnabled : Option Bool) : Bool :=
  optEnabled.getD true && strTruthy userId && strTruthy token

/-- `useHistories`'s `queryFn`: fetch the list, throw when the envelope's
`success` or `data` field is falsy (message from `response.error` with the
generic fallback), otherwise resolve with `response.data`. -/
def useHistoriesQueryFn (c : StarterClient String)
    (userId token : String) : NetM String JVal :=
  netBind (c.getHistories userId token) (fun response =>
    if !(jGetTruthy response "success") || !(jGetTruthy response "data") then
      netThrow (envErrorMessage response "Failed to fetch histories")
    else
      netPure ((jGet response "data").getD JVal.null))

/-- `useHistoriesTotal`'s `queryFn`: fetch the public total, throw when
`success` or `data` is falsy, otherwise resolve with `response.data`. -/
def useHistoriesTotalQueryFn (c : StarterClient String) : NetM String JVal :=
  netBind c.getHistoriesTotal (fun response =>
    if !(jGetTruthy response "success") || !(jGetTruthy response "data") then
      netThrow (envErrorMessage response "Failed to fetch total")
    else
      netPure ((jGet response "data").getD JVal.null))

/-- The projection `useHistories` exposes to its caller. -/
structure UseHistoriesReturn where
  histories : JVal
  isLoading : Bool
  error : Option String

/-- Modelled from the spec: the query engine's settled state after the query
function resolves or throws.  On resolution `data` holds the value and
`error` is null; on a thrown error `data` stays `undefined` (so the hook
renders `data ?? EMPTY_HISTORIES`) and `error` carries the message, which
the hook converts via `queryError instanceof Error ? queryError.message : null`. -/
def useHistoriesResult (outcome : Except String JVal) : UseHistoriesReturn :=
  match outcome with
  | Except.ok v => ⟨v, false, none⟩
  | Except.error e => ⟨EMPTY_HISTORIES, false, some e⟩

/-- The projection `useHistoriesTotal` exposes to its caller. -/
structure UseHistoriesTotalReturn where
  total : JVal
  isLoading : Bool
  error : Option String

/-- Modelled from the spec: the query engine's settled state for the total
hook; the hook renders `data?.total ?? 0`. -/
def useHistoriesTotalResult (outcome : Except String JVal) :
    UseHistoriesTotalReturn :=
  match outcome with
  | Except.ok v => ⟨jCoalesce (jGet v "total") (JVal.num 0), false, none⟩
  | Except.error e => ⟨JVal.num 0, false, some e⟩

/-- The static configuration a query hook hands to the query engine. -/
structure QueryConfig where
  queryKey : List String
  enabled : Bool
  staleTime : Nat
  gcTime : Nat
deriving DecidableEq

/-- The `useQuery` configuration built by `useHistories`: key
`QUERY_KEYS.histories(userId ?? '')`, the enabled flag, and the default
staleness and garbage-collection windows. -/
def useHistoriesConfig (userId token : Option String)
    (optEnabled : Option Bool) : QueryConfig :=
  ⟨QUERY_KEYS.histories (userId.getD ""),
   useHistoriesEnabled userId token optEnabled,
   DEFAULT_STALE_TIME, DEFAULT_GC_TIME⟩

/-- The `useQuery` configuration built by `useHistoriesTotal`: key
`QUERY_KEYS.historiesTotal()`, enabled `options?.enabled ?? true`, and the
literal `5 * 60 * 1000` / `30 * 60 * 1000` windows. -/
def useHistoriesTotalConfig (optEnabled : Option Bool) : QueryConfig :=
  ⟨QUERY_KEYS.historiesTotal, optEnabled.getD true,
   5 * 60 * 1000, 30 * 60 * 1000⟩

/-- A cache entry as stored by the query engine on success. -/
structure CacheEntry where
  key : List String
  value : JVal
  staleTime : Nat
  gcTime : Nat

/-- Modelled from the spec: on success the query engine stores the result
under the configured key with the configured staleness and GC windows. -/
def storeOnSuccess (cfg : QueryConfig) (v : JVal) : CacheEntry :=
  ⟨cfg.queryKey, v, cfg.staleTime, cfg.gcTime⟩

/-- Modelled from the spec: a disabled query issues no request; an enabled
one runs the query function once, so the transport sees exactly the query
function's trace. -/
def useHistoriesRequests (c : StarterClient String)
    (userId token : Option String) (optEnabled : Option Bool) : Trace :=
  if useHistoriesEnabled userId token optEnabled then
    (useHistoriesQueryFn c (userId.getD "") (token.getD "") []).2
  else
    []

/-- `useHistoryMutations`'s shared `invalidate` callback: invalidate the
user's list key only when `userId` is truthy, then always the total key. -/
def useHistoryMutations.invalidate (userId : Option String) :
    List (List String) :=
  (if strTruthy userId then [QUERY_KEYS.histories (userId.getD "")] else [])
    ++ [QUERY_KEYS.historiesTotal]

/-- The create mutation's `onSuccess` handler:
`response => { if (response.success) invalidate(); }`. -/
def useHistoryMutations.createOnSuccess (userId : Option String)
    (response : JVal) : List (List String) :=
  if jGetTruthy response "success" then useHistoryMutations.invalidate userId
  else []

/-- The update mutation's `onSuccess` handler (textually identical to the
create one in the source). -/
def useHistoryMutations.updateOnSuccess (userId : Option String)
    (response : JVal) : List (List String) :=
  if jGetTruthy response "success" then useHistoryMutations.invalidate userId
  else []

/-- The delete mutation's `onSuccess` handler (textually identical to the
create one in the source). -/
def useHistoryMutations.deleteOnSuccess (userId : Option String)
    (response : JVal) : List (List String) :=
  if jGetTruthy response "success" then useHistoryMutations.invalidate userId
  else []

/-- The create mutation's `mutationFn`: call `client.createHistory(userId!,
data, token!)` and return the envelope without inspecting it.  The TypeScript
non-null assertion does nothing at runtime; a `null` identity interpolates
into the URL and the bearer header as the string `"null"`. -/
def useHistoryMutations.createMutationFn (c : StarterClient String)
    (userId token : Option String) (data : JVal) : NetM String JVal :=
  c.createHistory (userId.getD "null") data (token.getD "null")

/-- The update mutation's `mutationFn`. -/
def useHistoryMutations.updateMutationFn (c : StarterClient String)
    (userId token : Option String) (historyId : String) (data : JVal) :
    NetM String JVal :=
  c.updateHistory (userId.getD "null") historyId data (token.getD "null")

/-- The delete mutation's `mutationFn`. -/
def useHistoryMutations.deleteMutationFn (c : StarterClient String)
    (userId token : Option String) (historyId : String) : NetM String JVal :=
  c.deleteHistory (userId.getD "null") historyId (token.getD "null")

/-- The settled state of one mutation. -/
structure MutationOutcome where
  result : Except String JVal
  errorState : Option String
  invalidations : List (List String)

/-- Modelled from the spec: the mutation engine resolves or rejects
`mutateAsync` with the mutation function's outcome, sets the mutation's
error state only on rejection, and fires `onSuccess` only on resolution. -/
def settleMutation (onSuccess : JVal → List (List String))
    (outcome : Except String JVal) : MutationOutcome :=
  match outcome with
  | Except.ok env => ⟨Except.ok env, none, onSuccess env⟩
  | Except.error e => ⟨Except.error e, some e, []⟩

/-- The settled state of the create mutation. -/
def useHistoryMutations.createSettle (userId : Option String)
    (outcome : Except String JVal) : MutationOutcome :=
  settleMutation (useHistoryMutations.createOnSuccess userId) outcome

/-- The settled state of the update mutation. -/
def useHistoryMutations.updateSettle (userId : Option String)
    (outcome : Except String JVal) : MutationOutcome :=
  settleMutation (useHistoryMutations.updateOnSuccess userId) outcome

/-- The settled state of the delete mutation. -/
def useHistoryMutations.deleteSettle (userId : Option String)
    (outcome : Except String JVal) : MutationOutcome :=
  settleMutation (useHistoryMutations.deleteOnSuccess userId) outcome

/-! ## Transport-trace lemmas for the six client methods -/

/-- Running `getUser` against the logging transport: one logged request,
result forwarded verbatim. -/
theorem run_getUser {ε : Type} (f : Request → Except ε TransportResponse)
    (base uid tok : String) (log : Trace) :
    (StarterClient.mk base (loggingClient f)).getUser uid tok log
      = (match f (getUserRequest base uid tok) with
         | Except.error e => Except.error e
         | Except.ok r => Except.ok r.data,
         log ++ [getUserRequest base uid tok]) := by
  cases h : f (getUserRequest base uid tok) <;>
    simp only [getUserRequest] at h <;>
    simp [StarterClient.getUser, netBind, netPure, loggingClient,
      getUserRequest, h]

/-- Running `getHistories` against the logging transport. -/
theorem run_getHistories {ε : Type} (f : Request → Except ε TransportResponse)
    (base uid tok : String) (log : Trace) :
    (StarterClient.mk base (loggingClient f)).getHistories uid tok log
      = (match f (getHistoriesRequest base uid tok) with
         | Except.error e => Except.error e
         | Except.ok r => Except.ok r.data,
         log ++ [getHistoriesRequest base uid tok]) := by
  cases h : f (getHistoriesRequest base uid tok) <;>
    simp only [getHistoriesRequest] at h <;>
    simp [StarterClient.getHistories, netBind, netPure, loggingClient,
      getHistoriesRequest, h]

/-- Running `createHistory` against the logging transport. -/
theorem run_createHistory {ε : Type} (f : Request → Except ε TransportResponse)
    (base uid : String) (d : JVal) (tok : String) (log : Trace) :
    (StarterClient.mk base (loggingClient f)).createHistory uid d tok log
      = (match f (createHistoryRequest base uid d tok) with
         | Except.error e => Except.error e
         | Except.ok r => Except.ok r.data,
         log ++ [createHistoryRequest base uid d tok]) := by
  cases h : f (createHistoryRequest base uid d tok) <;>
    simp only [createHistoryRequest] at h <;>
    simp [StarterClient.createHistory, netBind, netPure, loggingClient,
      createHistoryRequest, h]

/-- Running `updateHistory` against the logging transport. -/
theorem run_updateHistory {ε : Type} (f : Request → Except ε TransportResponse)
    (base uid hid : String) (d : JVal) (tok : String) (log : Trace) :
    (StarterClient.mk base (loggingClient f)).updateHistory uid hid d tok log
      = (match f (updateHistoryRequest base uid hid d tok) with
         | Except.error e => Except.error e
         | Except.ok r => Except.ok r.data,
         log ++ [updateHistoryRequest base uid hid d tok]) := by
  cases h : f (updateHistoryRequest base uid hid d tok) <;>
    simp only [updateHistoryRequest] at h <;>
    simp [StarterClient.updateHistory, netBind, netPure, loggingClient,
      updateHistoryRequest, h]

/-- Running `deleteHistory` against the logging transport. -/
theorem run_deleteHistory {ε : Type} (f : Request → Except ε TransportResponse)
    (base uid hid tok : String) (log : Trace) :
    (StarterClient.mk base (loggingClient f)).deleteHistory uid hid tok log
      = (match f (deleteHistoryRequest base uid hid tok) with
         | Except.error e => Except.error e
         | Except.ok r => Except.ok r.data,
         log ++ [deleteHistoryRequest base uid hid tok]) := by
  cases h : f (deleteHistoryRequest base uid hid tok) <;>
    simp only [deleteHistoryRequest] at h <;>
    simp [StarterClient.deleteHistory, netBind, netPure, loggingClient,
      deleteHistoryRequest, h]

/-- Running `getHistoriesTotal` against the logging transport. -/
theorem run_getHistoriesTotal {ε : Type}
    (f : Request → Except ε TransportResponse) (base : String) (log : Trace) :
    (StarterClient.mk base (loggingClient f)).getHistoriesTotal log
      = (match f (getHistoriesTotalRequest base) with
         | Except.error e => Except.error e
         | Except.ok r => Except.ok r.data,
         log ++ [getHistoriesTotalRequest base]) := by
  cases h : f (getHistoriesTotalRequest base) <;>
    simp only [getHistoriesTotalRequest] at h <;>
    simp [StarterClient.getHistoriesTotal, netBind, netPure, loggingClient,
      getHistoriesTotalRequest, h]

/-! ## Claim theorems -/

/-- C7: every `StarterClient` method issues exactly one call to the injected
transport (the trace grows by exactly the one request of that method), and
the transport's outcome is forwarded verbatim: a rejection `error e`
propagates unmodified, with no catch or reinterpretation. -/
theorem starterClient_single_call_propagation {ε : Type}
    (f : Request → Except ε TransportResponse)
    (base uid hid tok : String) (d : JVal) (log : Trace) :
    (StarterClient.mk base (loggingClient f)).getUser uid tok log
      = (match f (getUserRequest base uid tok) with
         | Except.error e => Except.error e
         | Except.ok r => Except.ok r.data,
         log ++ [getUserRequest base uid tok])
    ∧ (StarterClient.mk base (loggingClient f)).getHistories uid tok log
      = (match f (getHistoriesRequest base uid tok) with
         | Except.error e => Except.error e
         | Except.ok r => Except.ok r.data,
         log ++ [getHistoriesRequest base uid tok])
    ∧ (StarterClient.mk base (loggingClient f)).createHistory uid d tok log
      = (match f (createHistoryRequest base uid d tok) with
         | Except.error e => Except.error e
         | Except.ok r => Except.ok r.data,
         log ++ [createHistoryRequest base uid d tok])
    ∧ (StarterClient.mk base (loggingClient f)).updateHistory uid hid d tok log
      = (match f (updateHistoryRequest base uid hid d tok) with
         | Except.error e => Except.error e
         | Except.ok r => Except.ok r.data,
         log ++ [updateHistoryRequest base uid hid d tok])
    ∧ (StarterClient.mk base (loggingClient f)).deleteHistory uid hid tok log
      = (match f (deleteHistoryRequest base uid hid tok) with
         | Except.error e => Except.error e
         | Except.ok r => Except.ok r.data,
         log ++ [deleteHistoryRequest base uid hid tok])
    ∧ (StarterClient.mk base (loggingClient f)).getHistoriesTotal log
      = (match f (getHistoriesTotalRequest base) with
         | Except.error e => Except.error e
         | Except.ok r => Except.ok r.data,
         log ++ [getHistoriesTotalRequest base]) :=
  ⟨run_getUser f base uid tok log,
   run_getHistories f base uid tok log,
   run_createHistory f base uid d tok log,
   run_updateHistory f base uid hid d tok log,
   run_deleteHistory f base uid hid tok log,
   run_getHistoriesTotal f base log⟩

/-- C5: for every token, each authenticated client method sends exactly the
headers Content-Type, Accept and Authorization (`Bearer <token>`), while
`getHistoriesTotal` sends only Content-Type and Accept and never an
Authorization header; the trace equations tie each request to the actual
transport invocation made by the method. -/
theorem client_headers_exact {ε : Type}
    (f : Request → Except ε TransportResponse)
    (base uid hid tok : String) (d : JVal) (log : Trace) :
    createAuthHeaders tok
      = [("Content-Type", "application/json"),
         ("Accept", "application/json"),
         ("Authorization", "Bearer " ++ tok)]
    ∧ createHeaders
      = [("Content-Type", "application/json"),
         ("Accept", "application/json")]
    ∧ (getUserRequest base uid tok).options.headers = createAuthHeaders tok
    ∧ (getHistoriesRequest base uid tok).options.headers
        = createAuthHeaders tok
    ∧ (createHistoryRequest base uid d tok).options.headers
        = createAuthHeaders tok
    ∧ (updateHistoryRequest base uid hid d tok).options.headers
        = createAuthHeaders tok
    ∧ (deleteHistoryRequest base uid hid tok).options.headers
        = createAuthHeaders tok
    ∧ (getHistoriesTotalRequest base).options.headers = createHeaders
    ∧ List.lookup "Authorization" (getHistoriesTotalRequest base).options.headers
        = none
    ∧ ((StarterClient.mk base (loggingClient f)).getUser uid tok log).2
        = log ++ [getUserRequest base uid tok]
    ∧ ((StarterClient.mk base (loggingClient f)).getHistories uid tok log).2
        = log ++ [getHistoriesRequest base uid tok]
    ∧ ((StarterClient.mk base (loggingClient f)).createHistory uid d tok log).2
        = log ++ [createHistoryRequest base uid d tok]
    ∧ ((StarterClient.mk base (loggingClient f)).updateHistory uid hid d tok log).2
        = log ++ [updateHistoryRequest base uid hid d tok]
    ∧ ((StarterClient.mk base (loggingClient f)).deleteHistory uid hid tok log).2
        = log ++ [deleteHistoryRequest base uid hid tok]
    ∧ ((StarterClient.mk base (loggingClient f)).getHistoriesTotal log).2
        = log ++ [getHistoriesTotalRequest base] := by
  refine ⟨rfl, rfl, rfl, rfl, rfl, rfl, rfl, rfl, rfl, ?_, ?_, ?_, ?_, ?_, ?_⟩
  · rw [run_getUser f base uid tok log]
  · rw [run_getHistories f base uid tok log]
  · rw [run_createHistory f base uid d tok log]
  · rw [run_updateHistory f base uid hid d tok log]
  · rw [run_deleteHistory f base uid hid tok log]
  · rw [run_getHistoriesTotal f base log]

/-- Whether a character list contains two consecutive slashes. -/
def hasDoubleSlash : List Char → Bool
  | '/' :: '/' :: _ => true
  | _ :: rest => hasDoubleSlash rest
  | [] => false

/-- Whether a character list ends with two consecutive slashes. -/
def endsWith2Slashes (s : List Char) : Bool :=
  lastIsSlash s && lastIsSlash s.dropLast

/-- C3 counterexample: for the base `https://api.example.com//`, which ends
in trailing slashes, `buildUrl` strips only one of them, so joining the
client's total path produces a double slash after the scheme separator
(the first 8 characters `https://` are dropped before scanning). -/
theorem buildUrl_double_slash_cex :
    lastIsSlash "https://api.example.com//".data = true
    ∧ hasDoubleSlash
        ((buildUrl "https://api.example.com//" "/api/v1/histories/total").data.drop 8)
      = true :=
  ⟨rfl, rfl⟩

/-- C3 amended: provided the base does not end in two consecutive slashes,
the cleaned base never ends with a slash, so joining any path that starts
with a slash cannot create a double slash at the join point; `buildUrl` is
exactly that concatenation. -/
theorem buildUrl_join_single_slash (b p : String)
    (hb : endsWith2Slashes b.data = false) :
    (buildUrl b p).data = stripTrailingSlash b.data ++ p.data
    ∧ (lastIsSlash (stripTrailingSlash b.data) && headIsSlash p.data)
        = false := by
  refine ⟨rfl, ?_⟩
  cases h : lastIsSlash b.data with
  | false => simp [stripTrailingSlash, h]
  | true =>
      simp only [endsWith2Slashes, h, Bool.true_and] at hb
      simp [stripTrailingSlash, h, hb]

/-- C3 amended, witness: the spec's own example base with a single trailing
slash joins the public total path without a double slash. -/
theorem buildUrl_join_single_slash_witness :
    (buildUrl "https://api.example.com/" "/api/v1/histories/total").data
        = stripTrailingSlash "https://api.example.com/".data
            ++ "/api/v1/histories/total".data
    ∧ (lastIsSlash (stripTrailingSlash "https://api.example.com/".data)
        && headIsSlash "/api/v1/histories/total".data) = false :=
  buildUrl_join_single_slash "https://api.example.com/"
    "/api/v1/histories/total" rfl

/-- A transport behaviour that resolves every request with the same
envelope, the shape of the mocked network clients in the repository's
tests. -/
def constTransport (env : JVal) : Request → Except String TransportResponse :=
  fun _ => Except.ok ⟨env⟩

/-- The mocked user envelope of the `getUser` test:
`{success:true, data:{firebase_uid:'user-123',...}}`. -/
def userEnvelope : JVal :=
  JVal.obj [("success", JVal.bool true),
            ("data", JVal.obj [("firebase_uid", JVal.str "user-123"),
                               ("email", JVal.str "test@example.com")])]

/-- C9: if the transport's get resolves with the mocked user envelope, then
`getUser('user-123','token')` resolves with that envelope unchanged, whose
`success` is `true` and whose `data.firebase_uid` is `'user-123'`. -/
theorem getUser_unwraps_envelope {ε : Type}
    (f : Request → Except ε TransportResponse) (base : String) (log : Trace)
    (h : f (getUserRequest base "user-123" "token")
          = Except.ok ⟨userEnvelope⟩) :
    ((StarterClient.mk base (loggingClient f)).getUser "user-123" "token" log).1
      = Except.ok userEnvelope
    ∧ jGet userEnvelope "success" = some (JVal.bool true)
    ∧ (jGet userEnvelope "data").bind (fun d => jGet d "firebase_uid")
        = some (JVal.str "user-123") := by
  refine ⟨?_, rfl, rfl⟩
  rw [run_getUser f base "user-123" "token" log, h]

/-- C9 witness: the theorem instantiated with the constant mocked transport. -/
theorem getUser_unwraps_envelope_witness :
    ((StarterClient.mk "https://api.example.com"
        (loggingClient (constTransport userEnvelope))).getUser
        "user-123" "token" []).1
      = Except.ok userEnvelope
    ∧ jGet userEnvelope "success" = some (JVal.bool true)
    ∧ (jGet userEnvelope "data").bind (fun d => jGet d "firebase_uid")
        = some (JVal.str "user-123") :=
  getUser_unwraps_envelope (constTransport userEnvelope)
    "https://api.example.com" [] rfl

/-- An envelope with `success:true` but no `data` field. -/
def successNoData : JVal := JVal.obj [("success", JVal.bool true)]

/-- C1 counterexample: on a `success:true` envelope with no `data` field,
both the list and the total query functions throw the generic fallback
error instead of silently defaulting; the settled adapter carries a
non-null error string. -/
theorem useHistories_missing_data_cex :
    (useHistoriesQueryFn
        (StarterClient.mk "https://api.example.com"
          (loggingClient (constTransport successNoData)))
        "user-123" "token" []).1
      = Except.error "Failed to fetch histories"
    ∧ (useHistoriesTotalQueryFn
        (StarterClient.mk "https://api.example.com"
          (loggingClient (constTransport successNoData))) []).1
      = Except.error "Failed to fetch total"
    ∧ (useHistoriesResult (Except.error "Failed to fetch histories")).error
        = some "Failed to fetch histories" :=
  ⟨rfl, rfl, rfl⟩

/-- C1 amended: on an envelope whose `success` is truthy but whose `data`
is falsy or missing, the list and total hooks treat the response as an
error (they throw, with the envelope's error message or the generic
fallback); the mutation paths never classify envelope contents as failure —
they resolve with the envelope and leave the mutation error state null. -/
theorem hooks_error_on_missing_data (env : JVal)
    (hs : jGetTruthy env "success" = true)
    (hd : jGetTruthy env "data" = false)
    (base uid tok : String) (log : Trace) :
    (useHistoriesQueryFn
        (StarterClient.mk base (loggingClient (constTransport env)))
        uid tok log).1
      = Except.error (envErrorMessage env "Failed to fetch histories")
    ∧ (useHistoriesTotalQueryFn
        (StarterClient.mk base (loggingClient (constTransport env))) log).1
      = Except.error (envErrorMessage env "Failed to fetch total")
    ∧ (useHistoryMutations.createSettle (some uid) (Except.ok env)).result
        = Except.ok env
    ∧ (useHistoryMutations.createSettle (some uid) (Except.ok env)).errorState
        = none := by
  refine ⟨?_, ?_, rfl, rfl⟩
  · simp only [useHistoriesQueryFn, netBind]
    rw [run_getHistories (constTransport env) base uid tok log]
    simp [constTransport, hs, hd, netThrow]
  · simp only [useHistoriesTotalQueryFn, netBind]
    rw [run_getHistoriesTotal (constTransport env) base log]
    simp [constTransport, hs, hd, netThrow]

/-- C1 amended, witness: the theorem instantiated with the
`{success:true}` envelope of the counterexample. -/
theorem hooks_error_on_missing_data_witness :
    (useHistoriesQueryFn
        (StarterClient.mk "https://api.example.com"
          (loggingClient (constTransport successNoData)))
        "user-1" "tok" []).1
      = Except.error (envErrorMessage successNoData "Failed to fetch histories")
    ∧ (useHistoriesTotalQueryFn
        (StarterClient.mk "https://api.example.com"
          (loggingClient (constTransport successNoData))) []).1
      = Except.error (envErrorMessage successNoData "Failed to fetch total")
    ∧ (useHistoryMutations.createSettle (some "user-1")
        (Except.ok successNoData)).result = Except.ok successNoData
    ∧ (useHistoryMutations.createSettle (some "user-1")
        (Except.ok successNoData)).errorState = none :=
  hooks_error_on_missing_data successNoData rfl rfl
    "https://api.example.com" "user-1" "tok" []

/-- A `{success:false, error:'boom'}` envelope. -/
def failEnvelope : JVal :=
  JVal.obj [("success", JVal.bool false), ("error", JVal.str "boom")]

/-- C2 counterexample: when the transport resolves a create mutation with
`{success:false, error:'boom'}`, the mutation resolves with the envelope
instead of throwing, so the mutation hook's error state stays null — the
claim's "error becomes a non-null string" fails for the mutation adapters. -/
theorem mutation_error_stays_null_cex :
    (useHistoryMutations.createSettle (some "user-123")
        (Except.ok failEnvelope)).errorState = none
    ∧ (useHistoryMutations.createSettle (some "user-123")
        (Except.ok failEnvelope)).result = Except.ok failEnvelope :=
  ⟨rfl, rfl⟩

/-- C2 amended: on an envelope whose `success` is falsy, the list and total
query hooks surface a non-null error string (the server-supplied message
when the `error` field is a non-empty string, else the generic fallback)
while their data stays at the default; the mutation functions resolve with
the envelope unchanged and the mutation error state remains null. -/
theorem envelope_failure_surfacing (env : JVal)
    (hs : jGetTruthy env "success" = false)
    (base uid tok : String) (d : JVal) (hid : String) (log : Trace) :
    (useHistoriesQueryFn
        (StarterClient.mk base (loggingClient (constTransport env)))
        uid tok log).1
      = Except.error (envErrorMessage env "Failed to fetch histories")
    ∧ (useHistoriesResult
        (Except.error (envErrorMessage env "Failed to fetch histories"))).error
        = some (envErrorMessage env "Failed to fetch histories")
    ∧ (useHistoriesResult
        (Except.error (envErrorMessage env "Failed to fetch histories"))).histories
        = EMPTY_HISTORIES
    ∧ (useHistoriesTotalQueryFn
        (StarterClient.mk base (loggingClient (constTransport env))) log).1
      = Except.error (envErrorMessage env "Failed to fetch total")
    ∧ (useHistoriesTotalResult
        (Except.error (envErrorMessage env "Failed to fetch total"))).total
        = JVal.num 0
    ∧ (useHistoriesTotalResult
        (Except.error (envErrorMessage env "Failed to fetch total"))).error
        = some (envErrorMessage env "Failed to fetch total")
    ∧ (∀ fb s, jGet env "error" = some (JVal.str s) → s ≠ "" →
        envErrorMessage env fb = s)
    ∧ (useHistoryMutations.createMutationFn
        (StarterClient.mk base (loggingClient (constTransport env)))
        (some uid) (some tok) d log).1 = Except.ok env
    ∧ (useHistoryMutations.createSettle (some uid) (Except.ok env)).errorState
        = none
    ∧ (useHistoryMutations.createSettle (some uid) (Except.ok env)).result
        = Except.ok env
    ∧ (useHistoryMutations.updateMutationFn
        (StarterClient.mk base (loggingClient (constTransport env)))
        (some uid) (some tok) hid d log).1 = Except.ok env
    ∧ (useHistoryMutations.updateSettle (some uid) (Except.ok env)).errorState
        = none
    ∧ (useHistoryMutations.deleteMutationFn
        (StarterClient.mk base (loggingClient (constTransport env)))
        (some uid) (some tok) hid log).1 = Except.ok env
    ∧ (useHistoryMutations.deleteSettle (some uid) (Except.ok env)).errorState
        = none := by
  refine ⟨?_, rfl, rfl, ?_, rfl, rfl, ?_, ?_, rfl, rfl, ?_, rfl, ?_, rfl⟩
  · simp only [useHistoriesQueryFn, netBind]
    rw [run_getHistories (constTransport env) base uid tok log]
    simp [constTransport, hs, netThrow]
  · simp only [useHistoriesTotalQueryFn, netBind]
    rw [run_getHistoriesTotal (constTransport env) base log]
    simp [constTransport, hs, netThrow]
  · intro fb s hse hne
    simp [envErrorMessage, hse, jTruthy, hne, jValMessage]
  · simp only [useHistoryMutations.createMutationFn, Option.getD]
    rw [run_createHistory (constTransport env) base uid d tok log]
    simp [constTransport]
  · simp only [useHistoryMutations.updateMutationFn, Option.getD]
    rw [run_updateHistory (constTransport env) base uid hid d tok log]
    simp [constTransport]
  · simp only [useHistoryMutations.deleteMutationFn, Option.getD]
    rw [run_deleteHistory (constTransport env) base uid hid tok log]
    simp [constTransport]

/-- C2 amended, witness: the theorem instantiated with the
`{success:false, error:'boom'}` envelope. -/
theorem envelope_failure_surfacing_witness :
    (useHistoriesQueryFn
        (StarterClient.mk "https://api.example.com"
          (loggingClient (constTransport failEnvelope)))
        "user-1" "tok" []).1
      = Except.error (envErrorMessage failEnvelope "Failed to fetch histories")
    ∧ (useHistoriesResult
        (Except.error (envErrorMessage failEnvelope "Failed to fetch histories"))).error
        = some (envErrorMessage failEnvelope "Failed to fetch histories")
    ∧ (useHistoriesResult
        (Except.error (envErrorMessage failEnvelope "Failed to fetch histories"))).histories
        = EMPTY_HISTORIES
    ∧ (useHistoriesTotalQueryFn
        (StarterClient.mk "https://api.example.com"
          (loggingClient (constTransport failEnvelope))) []).1
      = Except.error (envErrorMessage failEnvelope "Failed to fetch total")
    ∧ (useHistoriesTotalResult
        (Except.error (envErrorMessage failEnvelope "Failed to fetch total"))).total
        = JVal.num 0
    ∧ (useHistoriesTotalResult
        (Except.error (envErrorMessage failEnvelope "Failed to fetch total"))).error
        = some (envErrorMessage failEnvelope "Failed to fetch total")
    ∧ (∀ fb s, jGet failEnvelope "error" = some (JVal.str s) → s ≠ "" →
        envErrorMessage failEnvelope fb = s)
    ∧ (useHistoryMutations.createMutationFn
        (StarterClient.mk "https://api.example.com"
          (loggingClient (constTransport failEnvelope)))
        (some "user-1") (some "tok") (JVal.obj []) []).1
        = Except.ok failEnvelope
    ∧ (useHistoryMutations.createSettle (some "user-1")
        (Except.ok failEnvelope)).errorState = none
    ∧ (useHistoryMutations.createSettle (some "user-1")
        (Except.ok failEnvelope)).result = Except.ok failEnvelope
    ∧ (useHistoryMutations.updateMutationFn
        (StarterClient.mk "https://api.example.com"
          (loggingClient (constTransport failEnvelope)))
        (some "user-1") (some "tok") "h-1" (JVal.obj []) []).1
        = Except.ok failEnvelope
    ∧ (useHistoryMutations.updateSettle (some "user-1")
        (Except.ok failEnvelope)).errorState = none
    ∧ (useHistoryMutations.deleteMutationFn
        (StarterClient.mk "https://api.example.com"
          (loggingClient (constTransport failEnvelope)))
        (some "user-1") (some "tok") "h-1" []).1
        = Except.ok failEnvelope
    ∧ (useHistoryMutations.deleteSettle (some "user-1")
        (Except.ok failEnvelope)).errorState = none :=
  envelope_failure_surfacing failEnvelope rfl
    "https://api.example.com" "user-1" "tok" (JVal.obj []) "h-1" []

/-- A `{success:true, data:{id:'h1'}}` envelope. -/
def okEnvelope : JVal :=
  JVal.obj [("success", JVal.bool true),
            ("data", JVal.obj [("id", JVal.str "h1")])]

/-- C4 counterexample: the invalidation callback checks JavaScript
truthiness, not null-ness, and the per-user list key collides with the
total key at `'total'`: with the non-null userId `''` a successful create
triggers zero invalidations of `['starter','histories','']`, and with the
non-null userId `'total'` it triggers two invalidations of
`['starter','histories','total']` — not exactly one as claimed. -/
theorem invalidate_exactly_once_cex :
    ((useHistoryMutations.createSettle (some "")
        (Except.ok okEnvelope)).invalidations).count (QUERY_KEYS.histories "")
      = 0
    ∧ ((useHistoryMutations.createSettle (some "total")
        (Except.ok okEnvelope)).invalidations).count
        (QUERY_KEYS.histories "total")
      = 2 := by
  constructor <;> rfl

/-- C4 amended: for every mutation performed with a non-null, non-empty
userId different from `'total'`, a truthy-`success` envelope triggers the
invalidation list `[histories userId, historiesTotal]` — exactly one
invalidation of each key — and a falsy-`success` envelope triggers none. -/
theorem mutation_success_invalidations (u : String) (hu : u ≠ "")
    (hu2 : u ≠ "total") (env : JVal)
    (hs : jGetTruthy env "success" = true) :
    (useHistoryMutations.createSettle (some u) (Except.ok env)).invalidations
      = [QUERY_KEYS.histories u, QUERY_KEYS.historiesTotal]
    ∧ (useHistoryMutations.updateSettle (some u) (Except.ok env)).invalidations
      = [QUERY_KEYS.histories u, QUERY_KEYS.historiesTotal]
    ∧ (useHistoryMutations.deleteSettle (some u) (Except.ok env)).invalidations
      = [QUERY_KEYS.histories u, QUERY_KEYS.historiesTotal]
    ∧ ([QUERY_KEYS.histories u, QUERY_KEYS.historiesTotal].count
        (QUERY_KEYS.histories u) = 1
      ∧ [QUERY_KEYS.histories u, QUERY_KEYS.historiesTotal].count
        QUERY_KEYS.historiesTotal = 1)
    ∧ (∀ env', jGetTruthy env' "success" = false →
        (useHistoryMutations.createSettle (some u)
          (Except.ok env')).invalidations = []
        ∧ (useHistoryMutations.updateSettle (some u)
          (Except.ok env')).invalidations = []
        ∧ (useHistoryMutations.deleteSettle (some u)
          (Except.ok env')).invalidations = []) := by
  have hne : QUERY_KEYS.histories u ≠ QUERY_KEYS.historiesTotal := by
    simp [QUERY_KEYS.histories, QUERY_KEYS.historiesTotal, hu2]
  have hu' : strTruthy (some u) = true := by simp [strTruthy, hu]
  refine ⟨?_, ?_, ?_, ⟨?_, ?_⟩, ?_⟩
  · simp [useHistoryMutations.createSettle, settleMutation,
      useHistoryMutations.createOnSuccess, useHistoryMutations.invalidate,
      hs, hu']
  · simp [useHistoryMutations.updateSettle, settleMutation,
      useHistoryMutations.updateOnSuccess, useHistoryMutations.invalidate,
      hs, hu']
  · simp [useHistoryMutations.deleteSettle, settleMutation,
      useHistoryMutations.deleteOnSuccess, useHistoryMutations.invalidate,
      hs, hu']
  · simp [List.count_cons, List.count_nil, hne]
  · simp [List.count_cons, List.count_nil, hne]
  · intro env' hs'
    refine ⟨?_, ?_, ?_⟩ <;>
      simp [useHistoryMutations.createSettle, useHistoryMutations.updateSettle,
        useHistoryMutations.deleteSettle, settleMutation,
        useHistoryMutations.createOnSuccess, useHistoryMutations.updateOnSuccess,
        useHistoryMutations.deleteOnSuccess, hs']

/-- C4 amended, witness: the theorem instantiated at userId `'user-123'`
with a truthy envelope, and its no-invalidation clause at the
`{success:false, error:'boom'}` envelope. -/
theorem mutation_success_invalidations_witness :
    (useHistoryMutations.createSettle (some "user-123")
        (Except.ok okEnvelope)).invalidations
      = [QUERY_KEYS.histories "user-123", QUERY_KEYS.historiesTotal]
    ∧ ([QUERY_KEYS.histories "user-123", QUERY_KEYS.historiesTotal].count
        (QUERY_KEYS.histories "user-123") = 1
      ∧ [QUERY_KEYS.histories "user-123", QUERY_KEYS.historiesTotal].count
        QUERY_KEYS.historiesTotal = 1)
    ∧ (useHistoryMutations.createSettle (some "user-123")
        (Except.ok failEnvelope)).invalidations = [] :=
  ⟨(mutation_success_invalidations "user-123" (by decide) (by decide)
      okEnvelope rfl).1,
   (mutation_success_invalidations "user-123" (by decide) (by decide)
      okEnvelope rfl).2.2.2.1,
   ((mutation_success_invalidations "user-123" (by decide) (by decide)
      okEnvelope rfl).2.2.2.2 failEnvelope rfl).1⟩

/-- C10: when userId is null, a truthy-`success` mutation still invalidates
the global total key — and only it — while no per-user list key can be
invalidated; the total-key invalidation happens for every userId. -/
theorem invalidate_null_user (env : JVal)
    (hs : jGetTruthy env "success" = true) (uid : Option String) :
    (useHistoryMutations.createSettle none (Except.ok env)).invalidations
      = [QUERY_KEYS.historiesTotal]
    ∧ (useHistoryMutations.updateSettle none (Except.ok env)).invalidations
      = [QUERY_KEYS.historiesTotal]
    ∧ (useHistoryMutations.deleteSettle none (Except.ok env)).invalidations
      = [QUERY_KEYS.historiesTotal]
    ∧ QUERY_KEYS.historiesTotal
        ∈ (useHistoryMutations.createSettle uid (Except.ok env)).invalidations
    ∧ QUERY_KEYS.historiesTotal
        ∈ (useHistoryMutations.updateSettle uid (Except.ok env)).invalidations
    ∧ QUERY_KEYS.historiesTotal
        ∈ (useHistoryMutations.deleteSettle uid (Except.ok env)).invalidations := by
  refine ⟨?_, ?_, ?_, ?_, ?_, ?_⟩ <;>
    simp [useHistoryMutations.createSettle, useHistoryMutations.updateSettle,
      useHistoryMutations.deleteSettle, settleMutation,
      useHistoryMutations.createOnSuccess, useHistoryMutations.updateOnSuccess,
      useHistoryMutations.deleteOnSuccess, useHistoryMutations.invalidate,
      hs, strTruthy]

/-- C10 witness: the theorem instantiated with a truthy envelope and the
userId `'user-123'` for the unaffectedness clause. -/
theorem invalidate_null_user_witness :
    (useHistoryMutations.createSettle none (Except.ok okEnvelope)).invalidations
      = [QUERY_KEYS.historiesTotal]
    ∧ (useHistoryMutations.updateSettle none (Except.ok okEnvelope)).invalidations
      = [QUERY_KEYS.historiesTotal]
    ∧ (useHistoryMutations.deleteSettle none (Except.ok okEnvelope)).invalidations
      = [QUERY_KEYS.historiesTotal]
    ∧ QUERY_KEYS.historiesTotal
        ∈ (useHistoryMutations.createSettle (some "user-123")
            (Except.ok okEnvelope)).invalidations
    ∧ QUERY_KEYS.historiesTotal
        ∈ (useHistoryMutations.updateSettle (some "user-123")
            (Except.ok okEnvelope)).invalidations
    ∧ QUERY_KEYS.historiesTotal
        ∈ (useHistoryMutations.deleteSettle (some "user-123")
            (Except.ok okEnvelope)).invalidations :=
  invalidate_null_user okEnvelope rfl (some "user-123")

/-- C6 counterexample: with the non-null userId `''` (and a non-null token
and the enabled option unset), the claim demands the query be enabled, but
`!!userId` is false on the empty string, so the computed flag is `false`. -/
theorem useHistories_enabled_cex :
    useHistoriesEnabled (some "") (some "token-abc") none = false :=
  rfl

/-- C6 amended: the list query is disabled — and issues no transport
request — whenever userId is null, token is null, or the caller passed
`enabled: false`; it is enabled exactly when the enabled option is not
`false` and both userId and token are truthy (non-null and non-empty). -/
theorem useHistories_enabled_amended (c : StarterClient String)
    (userId token : Option String) (optEnabled : Option Bool) :
    ((userId = none ∨ token = none ∨ optEnabled = some false) →
        useHistoriesEnabled userId token optEnabled = false
        ∧ useHistoriesRequests c userId token optEnabled = [])
    ∧ (strTruthy userId = true → strTruthy token = true →
        optEnabled ≠ some false →
        useHistoriesEnabled userId token optEnabled = true) := by
  constructor
  · rintro (h | h | h) <;> subst h <;>
      constructor <;>
      simp [useHistoriesEnabled, useHistoriesRequests, strTruthy, Option.getD]
  · intro h1 h2 h3
    simp only [useHistoriesEnabled, h1, h2, Bool.and_true]
    cases optEnabled with
    | none => rfl
    | some b =>
        cases b with
        | true => rfl
        | false => exact absurd rfl h3

/-- A client over the mocked transport, for closed instantiations. -/
def demoClient : StarterClient String :=
  StarterClient.mk "https://api.example.com"
    (loggingClient (constTransport okEnvelope))

/-- C6 amended, witness: with a null userId the query is disabled and no
request is issued; with truthy userId and token and the option unset it is
enabled. -/
theorem useHistories_enabled_amended_witness :
    (useHistoriesEnabled none (some "token-abc") none = false
      ∧ useHistoriesRequests demoClient none (some "token-abc") none = [])
    ∧ useHistoriesEnabled (some "user-123") (some "token-abc") none = true :=
  ⟨(useHistories_enabled_amended demoClient none (some "token-abc") none).1
      (Or.inl rfl),
   (useHistories_enabled_amended demoClient (some "user-123")
      (some "token-abc") none).2 rfl rfl (by simp)⟩

/-- C8: both query hooks hand the query engine the entity's cache key with
a staleness window of 5 minutes and a garbage-collection window of 30
minutes, and on success the engine stores the result under exactly that key
with exactly those windows. -/
theorem query_hook_cache_config (userId token : Option String)
    (optEnabled : Option Bool) (v : JVal) :
    (useHistoriesConfig userId token optEnabled).queryKey
      = QUERY_KEYS.histories (userId.getD "")
    ∧ (useHistoriesConfig userId token optEnabled).staleTime = 5 * 60 * 1000
    ∧ (useHistoriesConfig userId token optEnabled).gcTime = 30 * 60 * 1000
    ∧ (useHistoriesTotalConfig optEnabled).queryKey = QUERY_KEYS.historiesTotal
    ∧ (useHistoriesTotalConfig optEnabled).staleTime = 5 * 60 * 1000
    ∧ (useHistoriesTotalConfig optEnabled).gcTime = 30 * 60 * 1000
    ∧ DEFAULT_STALE_TIME = 300000
    ∧ DEFAULT_GC_TIME = 1800000
    ∧ storeOnSuccess (useHistoriesConfig userId token optEnabled) v
      = ⟨QUERY_KEYS.histories (userId.getD ""), v, 300000, 1800000⟩
    ∧ storeOnSuccess (useHistoriesTotalConfig optEnabled) v
      = ⟨QUERY_KEYS.historiesTotal, v, 300000, 1800000⟩ :=
  ⟨rfl, rfl, rfl, rfl, rfl, rfl, rfl, rfl, rfl, rfl⟩
